import Mathlib

/-!
Shallow embedding of the tenant-isolation and plan-gated authorization
engine of a multi-tenant legal-practice SaaS back end.

The definitions below are translated from the TypeScript source:
  - server/src/middleware/auth.ts        (authenticateToken)
  - server/src/middleware/tenant.ts      (tenantMiddleware)
  - the account-control middleware       (ACCOUNT_MODULES, checkAccountAccess,
                                          checkAccountLimits, getSuggestedAccounts,
                                          getSuggestedAccountsForLimit)
  - the auth routes                      (register, refresh)
  - the upload routes                    (single upload, get file by id, list files)
  - the audit helper                     (createAuditLog)

Stateful Express handlers become pure functions over an explicit `Store`
(the Prisma-backed credential store) plus the current time; JWT signing
and verification become a `Secret` tag plus an expiry comparison;
fallible paths return explicit outcome inductives mirroring the HTTP
status and JSON body each handler produces.
-/

namespace LegalSaas

/-- The two JWT signing secrets: JWT_SECRET for access tokens and
JWT_REFRESH_SECRET for refresh tokens.  A token "verifies" under a secret
exactly when it was signed with that secret (signature check). -/
inductive Secret
| accessSecret
| refreshSecret
deriving DecidableEq, Repr

/-- A signed JWT.  Access tokens are signed with the payload
  \x7b userId, tenantId, accountType \x7d and `JWT_SECRET`;
refresh tokens with \x7b userId, tenantId, type: refresh \x7d and
`JWT_REFRESH_SECRET`.  `isRefreshType` models the presence of the
`type: refresh` claim; `exp` the expiry instant; `secret` which key
produced the signature. -/
structure Token where
  userId : Nat
  tenantId : Nat
  accountType : Option String
  isRefreshType : Bool
  secret : Secret
  exp : Int
deriving DecidableEq, Repr

/-- jwt.verify errors: signature mismatch / malformed, or elapsed expiry. -/
inductive JwtError
| invalidSignature
| expired
deriving DecidableEq, Repr

/-- `jwt.verify(token, secret)`: rejects a signature made with a different
secret, then rejects an elapsed expiry, otherwise returns the decoded
payload (the token itself in this embedding). -/
def jwtVerify (t : Token) (s : Secret) (now : Int) : Except JwtError Token :=
  if t.secret ≠ s then .error .invalidSignature
  else if t.exp ≤ now then .error .expired
  else .ok t

/-- A `User` row (principal): Prisma model fields used by the core. -/
structure User where
  id : Nat
  email : String
  name : String
  tenantId : Nat
  accountType : String
  isActive : Bool
deriving DecidableEq, Repr

/-- A `Tenant` row: subscription state and per-account-tier capacity
limits (-1 = unlimited). -/
structure Tenant where
  id : Nat
  isActive : Bool
  expiresAt : Option Int
  maxSimpleAccounts : Int
  maxCompositeAccounts : Int
  maxManagerialAccounts : Int
deriving DecidableEq, Repr

/-- A `File` row as created by the upload route. `size` is nullable in the
schema (the storage quota sums `file.size || 0`). `onDisk` models
`fs.existsSync(file.path)`. -/
structure FileRecord where
  id : Nat
  tenantId : Nat
  filename : String
  originalName : String
  mimetype : String
  size : Option Nat
  path : String
  onDisk : Bool
  createdAt : Int
  uploadedBy : Nat
deriving DecidableEq, Repr

/-- A `Client` row (only the tenant key matters for quota counting). -/
structure ClientRecord where
  id : Nat
  tenantId : Nat
deriving DecidableEq, Repr

/-- A `Project` row (only the tenant key matters for quota counting). -/
structure ProjectRecord where
  id : Nat
  tenantId : Nat
deriving DecidableEq, Repr

/-- An `AuditLog` row as written by `createAuditLog` / the upload route. -/
structure AuditRecord where
  userId : Nat
  tenantId : Nat
  action : String
  resourceType : String
  resourceId : Nat
deriving DecidableEq, Repr

/-- The credential store (the Prisma database) as read by the core. -/
structure Store where
  users : List User
  tenants : List Tenant
  files : List FileRecord
  clients : List ClientRecord
  projects : List ProjectRecord
  auditLogs : List AuditRecord
deriving Repr

/-- `prisma.user.findUnique(\x7b where: \x7b id \x7d \x7d)`. -/
def findUser (s : Store) (uid : Nat) : Option User :=
  s.users.find? (fun u => u.id == uid)

/-- `prisma.tenant.findUnique(\x7b where: \x7b id \x7d \x7d)`. -/
def findTenant (s : Store) (tid : Nat) : Option Tenant :=
  s.tenants.find? (fun t => t.id == tid)

/-- The `req.user` object the authentication middleware installs for the
rest of the pipeline. -/
structure ReqUser where
  userId : Nat
  tenantId : Nat
  accountType : String
deriving DecidableEq, Repr

/-- Internal error kinds of the authentication middleware, one per
distinct `AppError` (plus the 500 path).  `tokenTypeMismatch` is the
spec-level taxonomy kind for refresh/access confusion; it is listed so
the taxonomy can be stated, and is never produced by the embedded code. -/
inductive AuthErrorKind
| tokenMissing
| tokenInvalid
| tokenExpired
| userNotFoundOrInactive
| tenantInactive
| tenantExpired
| internalError
| tokenTypeMismatch
deriving DecidableEq, Repr

/-- Result of `authenticateToken`: either `req.user` is installed and
`next()` runs, or the request is answered with (status, kind). -/
inductive AuthOutcome
| ok (user : ReqUser)
| err (status : Nat) (kind : AuthErrorKind)
deriving DecidableEq, Repr

/-- `authenticateToken` (auth.ts): extract the bearer token, verify it
against `JWT_SECRET`, re-read the user (with its tenant) from the store,
reject an inactive user, an inactive tenant, and an expired tenant, then
install `req.user` from the STORE row (`user.accountType`, not the
token's claim).  A missing tenant row would crash the property access and
surface as a 500 through the error handler.  (In the jsonwebtoken
library `TokenExpiredError` is a subclass of `JsonWebTokenError`, so both
verify failures are answered 401.) -/
def authenticateToken (s : Store) (now : Int) (tok? : Option Token) : AuthOutcome :=
  match tok? with
  | none => .err 401 .tokenMissing
  | some t =>
    match jwtVerify t .accessSecret now with
    | .error .invalidSignature => .err 401 .tokenInvalid
    | .error .expired => .err 401 .tokenExpired
    | .ok decoded =>
      match findUser s decoded.userId with
      | none => .err 401 .userNotFoundOrInactive
      | some u =>
        if !u.isActive then .err 401 .userNotFoundOrInactive
        else
          match findTenant s u.tenantId with
          | none => .err 500 .internalError
          | some ten =>
            if !ten.isActive then .err 403 .tenantInactive
            else if (match ten.expiresAt with
                     | some e => decide (e < now)
                     | none => false) then .err 403 .tenantExpired
            else .ok ⟨u.id, u.tenantId, u.accountType⟩

/-- Internal error kinds of `tenantMiddleware`, one per `AppError`. -/
inductive TenantErrorKind
| noTenantId
| tenantNotFound
| tenantInactive
| tenantExpired
deriving DecidableEq, Repr

/-- Result of `tenantMiddleware`: either `req.tenant` is installed, or the
request is answered with (status, kind). -/
inductive TenantOutcome
| ok (t : Tenant)
| err (status : Nat) (kind : TenantErrorKind)
deriving DecidableEq, Repr

/-- `tenantMiddleware` (tenant.ts): re-resolve the tenant id carried in
`req.user` against the store on this request; absent → 404, inactive →
403, expired (`expiresAt` set and in the past) → 403; otherwise install
`req.tenant`. -/
def tenantMiddleware (s : Store) (now : Int) (user? : Option ReqUser) : TenantOutcome :=
  match user? with
  | none => .err 401 .noTenantId
  | some u =>
    match findTenant s u.tenantId with
    | none => .err 404 .tenantNotFound
    | some t =>
      if !t.isActive then .err 403 .tenantInactive
      else if (match t.expiresAt with
               | some e => decide (e < now)
               | none => false) then .err 403 .tenantExpired
      else .ok t

/-- The static `ACCOUNT_MODULES` object: each account tier name mapped to
the list of module names it may invoke, in source (insertion) order. -/
def ACCOUNT_MODULES : List (String × List String) :=
  [ ("SIMPLE",
     [ "crm", "clients", "projects", "tasks", "billing", "basic_settings" ]),
    ("COMPOSITE",
     [ "crm", "clients", "projects", "tasks", "billing", "cash_flow",
       "transactions", "dashboard", "basic_settings" ]),
    ("MANAGERIAL",
     [ "crm", "clients", "projects", "tasks", "billing", "cash_flow",
       "transactions", "dashboard", "user_management", "advanced_settings",
       "audit_logs" ]) ]

/-- `ACCOUNT_MODULES[accountType]`: property lookup on the object keyed by
the (arbitrary) tier string; `none` models the `undefined` an
unrecognized key yields. -/
def accountModulesLookup (accountType : String) : Option (List String) :=
  (ACCOUNT_MODULES.find? (fun p => p.fst == accountType)).map (fun p => p.snd)

/-- `getSuggestedAccounts`: scan `Object.entries(ACCOUNT_MODULES)` in
order and collect the tier names whose module list contains the required
module. -/
def getSuggestedAccounts (requiredModule : String) : List String :=
  (ACCOUNT_MODULES.filter (fun p => p.snd.contains requiredModule)).map (fun p => p.fst)

/-- Result of the `checkAccountAccess` middleware, carrying the JSON body
fields of the 403 denial. -/
inductive AccessOutcome
| next
| notAuthenticated401
| denied403 (currentAccount : String) (requiredModule : String)
    (allowedModules : List String) (suggestedAccounts : List String)
| internalError500
deriving DecidableEq, Repr

/-- `checkAccountAccess(requiredModule)`: 401 without `req.user`; look the
tier up in `ACCOUNT_MODULES` — an unrecognized tier makes
`allowedModules.includes` throw on `undefined`, caught and answered
500 INTERNAL_ERROR; a tier whose list lacks the module is answered
403 ACCOUNT_ACCESS_DENIED with current tier, requested module, allowed
modules and `getSuggestedAccounts`; otherwise `next()`. -/
def checkAccountAccess (requiredModule : String) (user? : Option ReqUser) : AccessOutcome :=
  match user? with
  | none => .notAuthenticated401
  | some u =>
    match accountModulesLookup u.accountType with
    | none => .internalError500
    | some allowedModules =>
      if !(allowedModules.contains requiredModule) then
        .denied403 u.accountType requiredModule allowedModules
          (getSuggestedAccounts requiredModule)
      else .next

/-- The `features` sub-object of an `ACCOUNT_LIMITS` entry. -/
structure AccountFeatures where
  dashboard_financial : Bool
  cash_flow : Bool
  user_management : Bool
  advanced_reports : Bool
deriving DecidableEq, Repr

/-- One `ACCOUNT_LIMITS` entry: per-tier resource ceilings
(-1 = unlimited) and feature flags. -/
structure AccountLimits where
  maxClients : Int
  maxProjects : Int
  maxStorage : Int
  features : AccountFeatures
deriving DecidableEq, Repr

/-- The static `ACCOUNT_LIMITS` object. -/
def ACCOUNT_LIMITS : List (String × AccountLimits) :=
  [ ("SIMPLE",
     ⟨50, 25, 1024 * 1024 * 100, ⟨false, false, false, false⟩⟩),
    ("COMPOSITE",
     ⟨200, 100, 1024 * 1024 * 500, ⟨true, true, false, false⟩⟩),
    ("MANAGERIAL",
     ⟨-1, -1, 1024 * 1024 * 1024 * 5, ⟨true, true, true, true⟩⟩) ]

/-- `ACCOUNT_LIMITS[accountType]` property lookup. -/
def accountLimitsLookup (accountType : String) : Option AccountLimits :=
  (ACCOUNT_LIMITS.find? (fun p => p.fst == accountType)).map (fun p => p.snd)

/-- The three resource classes `checkAccountLimits` can guard. -/
inductive ResourceClass
| clients
| projects
| storage
deriving DecidableEq, Repr

/-- The store read of `checkAccountLimits`: count of the tenant's clients
or projects, or the summed byte size (`file.size || 0`) of its files. -/
def countResource (s : Store) (tid : Nat) : ResourceClass → Int
  | .clients => ((s.clients.filter (fun c => c.tenantId == tid)).length : Int)
  | .projects => ((s.projects.filter (fun p => p.tenantId == tid)).length : Int)
  | .storage =>
      (((s.files.filter (fun f => f.tenantId == tid)).foldl
        (fun total f => total + f.size.getD 0) 0 : Nat) : Int)

/-- The ceiling an `ACCOUNT_LIMITS` entry assigns a resource class. -/
def AccountLimits.maxFor (l : AccountLimits) : ResourceClass → Int
  | .clients => l.maxClients
  | .projects => l.maxProjects
  | .storage => l.maxStorage

/-- Result of the `checkAccountLimits` middleware, carrying the JSON body
fields of the 403 denial. -/
inductive LimitOutcome
| next
| invalidAuth401
| limitExceeded403 (currentAccount : String) (resourceClass : ResourceClass)
    (currentCount : Int) (maxAllowed : Int) (suggestedAccounts : List String)
| internalError500
deriving DecidableEq, Repr

/-- `getSuggestedAccountsForLimit`: the tiers whose numeric level exceeds
the current tier's level (an unrecognized current tier has `undefined`
level and every `>` comparison is false, yielding the empty list). -/
def getSuggestedAccountsForLimit (currentAccount : String) : List String :=
  let accountLevels : List (String × Nat) :=
    [("SIMPLE", 1), ("COMPOSITE", 2), ("MANAGERIAL", 3)]
  let currentLevel := (accountLevels.find? (fun p => p.fst == currentAccount)).map
    (fun p => p.snd)
  (accountLevels.filter (fun p =>
    match currentLevel with
    | some cl => decide (cl < p.snd)
    | none => false)).map (fun p => p.fst)

/-- `checkAccountLimits(resourceType)`: 401 without auth info; look the
tier's limits up (an unrecognized tier makes the property access throw,
caught and answered 500); read the current count from the store; deny
403 ACCOUNT_LIMIT_EXCEEDED when the ceiling is not -1 and
`currentCount >= maxAllowed`, else `next()`. -/
def checkAccountLimits (resourceClass : ResourceClass) (s : Store)
    (user? : Option ReqUser) : LimitOutcome :=
  match user? with
  | none => .invalidAuth401
  | some u =>
    match accountLimitsLookup u.accountType with
    | none => .internalError500
    | some limits =>
      let currentCount := countResource s u.tenantId resourceClass
      let maxAllowed := limits.maxFor resourceClass
      if maxAllowed ≠ -1 ∧ maxAllowed ≤ currentCount then
        .limitExceeded403 u.accountType resourceClass currentCount maxAllowed
          (getSuggestedAccountsForLimit u.accountType)
      else .next

/-- `createAuditLog` (utils/AppError.ts): try to append the audit row;
on failure only log to the console — the caller's flow is unchanged
either way.  `appendOk` models whether the underlying
`prisma.auditLog.create` succeeds. -/
def createAuditLog (appendOk : Bool) (log : List AuditRecord)
    (userId tenantId : Nat) (action resourceType : String)
    (resourceId : Nat) : List AuditRecord :=
  if appendOk then log ++ [⟨userId, tenantId, action, resourceType, resourceId⟩]
  else log

/-- The three account tiers as validated by the register route's
`z.enum(['SIMPLE', 'COMPOSITE', 'MANAGERIAL'])`. -/
inductive AccountType
| SIMPLE
| COMPOSITE
| MANAGERIAL
deriving DecidableEq, Repr

/-- The tier's name string as stored on a `User` row. -/
def AccountType.str : AccountType → String
  | .SIMPLE => "SIMPLE"
  | .COMPOSITE => "COMPOSITE"
  | .MANAGERIAL => "MANAGERIAL"

/-- `tenant._count.users` with `where: \x7b accountType \x7d`: how many of
the tenant's users already hold the requested tier. -/
def countUsersByType (s : Store) (tid : Nat) (acc : AccountType) : Int :=
  ((s.users.filter (fun u => u.tenantId == tid && u.accountType == acc.str)).length : Int)

/-- The `switch (accountType)` of the register route selecting the
tenant's capacity ceiling for the requested tier. -/
def maxAllowedFor (t : Tenant) : AccountType → Int
  | .SIMPLE => t.maxSimpleAccounts
  | .COMPOSITE => t.maxCompositeAccounts
  | .MANAGERIAL => t.maxManagerialAccounts

/-- Result of `POST /api/auth/register`, one constructor per response. -/
inductive RegisterOutcome
| emailInUse409
| tenantNotFound404
| tenantInactive403
| limitExceeded403 (maxAllowed : Int)
| created201 (userId : Nat)
deriving DecidableEq, Repr

/-- `POST /api/auth/register`: reject a taken email (409), a missing
tenant (404), an inactive tenant (403); then deny 403 when the tenant's
ceiling for the requested tier is not -1 and the current count has
reached it; otherwise create the user and append the audit row through
`createAuditLog` (whose failure is swallowed).  `newId` stands for the
id the database generates. -/
def register (s : Store) (newId : Nat) (auditOk : Bool) (email uname : String)
    (tenantId : Nat) (acc : AccountType) : RegisterOutcome × Store :=
  match s.users.find? (fun u => u.email == email) with
  | some _ => (.emailInUse409, s)
  | none =>
    match findTenant s tenantId with
    | none => (.tenantNotFound404, s)
    | some t =>
      if !t.isActive then (.tenantInactive403, s)
      else
        let currentCount := countUsersByType s tenantId acc
        let maxAllowed := maxAllowedFor t acc
        if maxAllowed ≠ -1 ∧ maxAllowed ≤ currentCount then
          (.limitExceeded403 maxAllowed, s)
        else
          let u : User := ⟨newId, email, uname, tenantId, acc.str, true⟩
          let s1 : Store := { s with users := s.users ++ [u] }
          let newLogs := createAuditLog auditOk s1.auditLogs newId tenantId ("REGISTER") ("USER") newId
          let s2 : Store := { s1 with auditLogs := newLogs }
          (.created201 newId, s2)

/-- Access-token TTL: `expiresIn: 24h`, in seconds. -/
def accessTokenTTL : Int := 24 * 60 * 60

/-- The access token `jwt.sign` produces: payload
\x7b userId, tenantId, accountType \x7d from the STORE row, signed with
`JWT_SECRET`, expiring one TTL after `now`. -/
def mkAccessToken (u : User) (now : Int) : Token :=
  ⟨u.id, u.tenantId, some u.accountType, false, .accessSecret, now + accessTokenTTL⟩

/-- Result of `POST /api/auth/refresh`, one constructor per response.
Every failure inside the handler's `try` block — signature or expiry
failure of `jwt.verify`, a missing refresh-type claim, a missing or
inactive user, an inactive tenant — is caught by the single `catch` and
answered 401 with the same generic invalid message. -/
inductive RefreshOutcome
| missing401
| invalid401
| ok (newToken : Token)
deriving DecidableEq, Repr

/-- `POST /api/auth/refresh`: require a body token (else 401 missing);
verify under `JWT_REFRESH_SECRET`; require `decoded.type === refresh`;
re-read the user with its tenant (selecting `isActive` and `expiresAt`);
require the user to exist and user and tenant to be active;  then mint a
fresh access token from the store row.  The tenant's `expiresAt` is
selected but never compared, and every inner failure is collapsed by the
`catch` into the generic 401. -/
def refreshRoute (s : Store) (now : Int) (tok? : Option Token) : RefreshOutcome :=
  match tok? with
  | none => .missing401
  | some t =>
    match jwtVerify t .refreshSecret now with
    | .error _ => .invalid401
    | .ok decoded =>
      if !decoded.isRefreshType then .invalid401
      else
        match findUser s decoded.userId with
        | none => .invalid401
        | some u =>
          if !u.isActive then .invalid401
          else
            match findTenant s u.tenantId with
            | none => .invalid401
            | some ten =>
              if !ten.isActive then .invalid401
              else .ok (mkAccessToken u now)

/-- The multer-parsed upload of `POST /api/upload/single`. -/
structure UploadedFile where
  filename : String
  originalName : String
  mimetype : String
  size : Nat
  path : String
deriving DecidableEq, Repr

/-- Result of `POST /api/upload/single`, one constructor per response. -/
inductive UploadOutcome
| noFile400
| success200 (fileId : Nat)
| serverError500
deriving DecidableEq, Repr

/-- `POST /api/upload/single`: without a parsed file answer 400; create
the `File` row under the authenticated tenant; then `await
prisma.auditLog.create` DIRECTLY (not through `createAuditLog`): when
that write fails the rejection propagates through `asyncHandler` to the
error handler and the request is answered 500, the file row already
created. -/
def uploadSingle (s : Store) (u : ReqUser) (newId : Nat)
    (file? : Option UploadedFile) (now : Int) (auditOk : Bool) :
    UploadOutcome × Store :=
  match file? with
  | none => (.noFile400, s)
  | some f =>
    let fr : FileRecord :=
      ⟨newId, u.tenantId, f.filename, f.originalName, f.mimetype,
       some f.size, f.path, true, now, u.userId⟩
    let s1 : Store := { s with files := s.files ++ [fr] }
    if auditOk then
      let newLogs := s1.auditLogs ++ [⟨u.userId, u.tenantId, ("FILE_UPLOAD"), ("FILE"), newId⟩]
      let s2 : Store := { s1 with auditLogs := newLogs }
      (.success200 newId, s2)
    else (.serverError500, s1)

/-- Result of `GET /api/upload/file/:id`, one constructor per response
(both misses are 404, with distinct messages). -/
inductive FileOutcome
| notFound404
| notFoundOnDisk404
| sent (f : FileRecord)
deriving DecidableEq, Repr

/-- `GET /api/upload/file/:id`: `prisma.file.findFirst` with BOTH the
requested id and the authenticated tenant in the `where`; a miss is 404,
a row whose path is gone from disk is 404, otherwise the file is sent. -/
def getFileById (s : Store) (u : ReqUser) (fid : Nat) : FileOutcome :=
  match s.files.find? (fun f => f.id == fid && f.tenantId == u.tenantId) with
  | none => .notFound404
  | some f => if !f.onDisk then .notFoundOnDisk404 else .sent f

/-- `GET /api/upload/files`: filter by the authenticated tenant (plus the
optional mimetype-prefix filter), order by `createdAt` descending, then
paginate with `skip (page-1)*limit` / `take limit`.  Returns the file
rows the response maps into its JSON list. -/
def listFiles (s : Store) (u : ReqUser) (page limit : Nat)
    (type? : Option String) : List FileRecord :=
  let matching := s.files.filter (fun f =>
    f.tenantId == u.tenantId &&
    (match type? with
     | some t => f.mimetype.startsWith t
     | none => true))
  let sorted := matching.mergeSort (fun a b => decide (b.createdAt ≤ a.createdAt))
  (sorted.drop ((page - 1) * limit)).take limit

/-- A successful `jwt.verify` returns the token's own payload. -/
theorem jwtVerify_ok_eq {t d : Token} {sec : Secret} {now : Int}
    (h : jwtVerify t sec now = .ok d) : d = t := by
  unfold jwtVerify at h
  split at h
  · exact absurd h (by simp)
  · split at h
    · exact absurd h (by simp)
    · injection h with h
      exact h.symm

/-- C1: Tenant isolation on reads — a file served by id always belongs to
the requesting principal's tenant (and is a stored record); when every
stored record with the requested id belongs to a different tenant the
response is 404; and every record returned by the listing belongs to the
requesting principal's tenant. -/
theorem C1_tenant_isolation_on_reads :
    (∀ (s : Store) (u : ReqUser) (fid : Nat) (f : FileRecord),
      getFileById s u fid = .sent f → f.tenantId = u.tenantId ∧ f ∈ s.files) ∧
    (∀ (s : Store) (u : ReqUser) (fid : Nat),
      (∀ f ∈ s.files, f.id = fid → f.tenantId ≠ u.tenantId) →
      getFileById s u fid = .notFound404) ∧
    (∀ (s : Store) (u : ReqUser) (page limit : Nat) (type? : Option String)
      (f : FileRecord), f ∈ listFiles s u page limit type? →
      f.tenantId = u.tenantId ∧ f ∈ s.files) := by
  refine ⟨?_, ?_, ?_⟩
  · intro s u fid f h
    unfold getFileById at h
    cases hf : s.files.find? (fun g => g.id == fid && g.tenantId == u.tenantId) with
    | none => rw [hf] at h; exact absurd h (by simp)
    | some g =>
      rw [hf] at h
      have hp := List.find?_some hf
      have hm := List.mem_of_find?_eq_some hf
      simp only [Bool.and_eq_true, beq_iff_eq] at hp
      by_cases hd : g.onDisk
      · simp only [hd, Bool.not_true, Bool.false_eq_true, if_false] at h
        injection h with h
        subst h
        exact ⟨hp.2, hm⟩
      · simp only [hd] at h
        exact absurd h (by simp)
  · intro s u fid hnone
    unfold getFileById
    have : s.files.find? (fun g => g.id == fid && g.tenantId == u.tenantId) = none := by
      rw [List.find?_eq_none]
      intro g hg
      simp only [Bool.and_eq_true, beq_iff_eq, not_and]
      intro hid
      exact fun hten => hnone g hg hid hten
    rw [this]
  · intro s u page limit type? f h
    unfold listFiles at h
    have h1 := List.mem_of_mem_take h
    have h2 := List.mem_of_mem_drop h1
    rw [List.mem_mergeSort] at h2
    rw [List.mem_filter] at h2
    refine ⟨?_, h2.1⟩
    have := h2.2
    simp only [Bool.and_eq_true, beq_iff_eq] at this
    exact this.1

/-- C1 witness: a concrete store whose only file with the requested id
belongs to another tenant is answered 404. -/
theorem C1_tenant_isolation_on_reads_witness :
    getFileById
      ⟨[], [], [⟨1, 2, ("a.txt"), ("a.txt"), ("text/plain"), some 10, ("p"), true, 0, 7⟩],
       [], [], []⟩
      ⟨7, 1, ("SIMPLE")⟩ 1 = .notFound404 :=
  C1_tenant_isolation_on_reads.2.1 _ _ _ (by decide)

/-- C2 counterexample: an access token whose tier claim is SIMPLE, for a
principal whose store row meanwhile says MANAGERIAL, authenticates into a
request context whose tier is MANAGERIAL — the pipeline does not use the
tier snapshotted into the token. -/
theorem C2_tier_snapshot_counterexample :
    authenticateToken
      ⟨[⟨1, ("a@x.com"), ("Ann"), 1, ("MANAGERIAL"), true⟩],
       [⟨1, true, none, 5, 5, 5⟩], [], [], [], []⟩
      0
      (some ⟨1, 1, some ("SIMPLE"), false, .accessSecret, 1000⟩)
      = .ok ⟨1, 1, ("MANAGERIAL")⟩ ∧
    (⟨1, 1, some ("SIMPLE"), false, .accessSecret, 1000⟩ : Token).accountType
      = some ("SIMPLE") ∧
    ("MANAGERIAL" : String) ≠ ("SIMPLE" : String) := by
  refine ⟨by decide, rfl, by decide⟩

/-- C2 amended: on every authenticated request, the tier installed into
the request context (and hence used by the capability gate) is the
principal's CURRENT tier re-read from the store, not the token's tier
claim: a mid-session tier change takes effect on the very next request
with the old token. -/
theorem C2_tier_reread_from_store (s : Store) (now : Int) (tok : Token)
    (ru : ReqUser) (h : authenticateToken s now (some tok) = .ok ru) :
    ∃ u, findUser s tok.userId = some u ∧ u.isActive = true ∧
      ru = ⟨u.id, u.tenantId, u.accountType⟩ := by
  simp only [authenticateToken] at h
  cases hv : jwtVerify tok .accessSecret now with
  | error e =>
    rw [hv] at h
    cases e <;> exact absurd h (by simp)
  | ok d =>
    rw [hv] at h
    rw [jwtVerify_ok_eq hv] at h
    dsimp only at h
    cases hu : findUser s tok.userId with
    | none => rw [hu] at h; exact absurd h (by simp)
    | some u =>
      rw [hu] at h
      by_cases ha : u.isActive
      · simp only [ha, Bool.not_true, Bool.false_eq_true, if_false] at h
        cases ht : findTenant s u.tenantId with
        | none => rw [ht] at h; exact absurd h (by simp)
        | some ten =>
          rw [ht] at h
          by_cases hta : ten.isActive
          · simp only [hta, Bool.not_true, Bool.false_eq_true, if_false] at h
            split at h
            · exact absurd h (by simp)
            · injection h with h
              exact ⟨u, rfl, ha, h.symm⟩
          · simp only [Bool.not_eq_true'] at hta
            simp only [hta, Bool.not_false, if_true] at h
            exact absurd h (by simp)
      · simp only [Bool.not_eq_true'] at ha
        simp only [ha, Bool.not_false, if_true] at h
        exact absurd h (by simp)

/-- C2 amended witness: the counterexample store again — the request
context carries the store's MANAGERIAL tier. -/
theorem C2_tier_reread_from_store_witness :
    ∃ u, findUser
      ⟨[⟨1, ("a@x.com"), ("Ann"), 1, ("MANAGERIAL"), true⟩],
       [⟨1, true, none, 5, 5, 5⟩], [], [], [], []⟩ 1 = some u ∧
      u.isActive = true ∧
      (⟨1, 1, ("MANAGERIAL")⟩ : ReqUser) = ⟨u.id, u.tenantId, u.accountType⟩ :=
  C2_tier_reread_from_store _ 0 ⟨1, 1, some ("SIMPLE"), false, .accessSecret, 1000⟩
    _ (by decide)

/-- C3: evaluation at the failing input.  A valid refresh token for an
active principal in an ACTIVE but EXPIRED tenant (expiresAt = 0, refresh
at now = 100): the refresh handler mints a new access token even though
the tenant's expiry has passed — the handler selects `expiresAt` but
never compares it.  Additionally, for a deactivated principal the same
handler answers the generic invalid-token 401 (the inner inactive error
is swallowed by the surrounding catch), not a distinct inactive kind. -/
theorem C3_refresh_mints_despite_expired_tenant :
    refreshRoute
      ⟨[⟨1, ("a@x.com"), ("Ann"), 1, ("SIMPLE"), true⟩],
       [⟨1, true, some 0, 5, 5, 5⟩], [], [], [], []⟩
      100
      (some ⟨1, 1, none, true, .refreshSecret, 1000⟩)
      = .ok ⟨1, 1, some ("SIMPLE"), false, .accessSecret, 100 + accessTokenTTL⟩ ∧
    (⟨1, true, some 0, 5, 5, 5⟩ : Tenant).expiresAt = some 0 ∧
    (0 : Int) < 100 ∧
    refreshRoute
      ⟨[⟨1, ("a@x.com"), ("Ann"), 1, ("SIMPLE"), false⟩],
       [⟨1, true, some 0, 5, 5, 5⟩], [], [], [], []⟩
      100
      (some ⟨1, 1, none, true, .refreshSecret, 1000⟩)
      = .invalid401 := by
  refine ⟨by decide, rfl, by decide, by decide⟩

/-- C4: tenant state is re-read from the store on every authenticated
request — for any store in which the principal's tenant is flagged
inactive, a still-valid, unexpired access token is denied 403 with the
tenant-inactive kind. -/
theorem C4_tenant_revalidated_per_request (s : Store) (now : Int)
    (tok : Token) (u : User) (ten : Tenant)
    (hsec : tok.secret = .accessSecret) (hexp : now < tok.exp)
    (hu : findUser s tok.userId = some u) (ha : u.isActive = true)
    (ht : findTenant s u.tenantId = some ten) (hia : ten.isActive = false) :
    authenticateToken s now (some tok) = .err 403 .tenantInactive := by
  have hv : jwtVerify tok .accessSecret now = .ok tok := by
    unfold jwtVerify
    rw [if_neg (by simp [hsec]), if_neg (not_le.mpr hexp)]
  simp only [authenticateToken]
  rw [hv]
  dsimp only
  rw [hu]
  dsimp only
  simp only [ha, Bool.not_true, Bool.false_eq_true, if_false]
  rw [ht]
  dsimp only
  simp only [hia, Bool.not_false, if_true]

/-- C4 witness: concrete store whose tenant was deactivated after the
token was issued; the next request is denied 403 TenantInactive. -/
theorem C4_tenant_revalidated_per_request_witness :
    authenticateToken
      ⟨[⟨1, ("a@x.com"), ("Ann"), 1, ("SIMPLE"), true⟩],
       [⟨1, false, none, 5, 5, 5⟩], [], [], [], []⟩
      0
      (some ⟨1, 1, some ("SIMPLE"), false, .accessSecret, 1000⟩)
      = .err 403 .tenantInactive :=
  C4_tenant_revalidated_per_request _ 0 _ _ _ rfl (by decide) rfl rfl rfl rfl

/-- C5: quota semantics of both the resource-creation limit middleware
and the per-tier account-creation check of the register route — a -1
ceiling always allows regardless of the current count; a finite ceiling
allows exactly when the current count is strictly below it and denies
once the count has reached it. -/
theorem C5_quota_limit_semantics :
    (∀ (rc : ResourceClass) (s : Store) (u : ReqUser) (limits : AccountLimits),
      accountLimitsLookup u.accountType = some limits →
      limits.maxFor rc = -1 →
      checkAccountLimits rc s (some u) = .next) ∧
    (∀ (rc : ResourceClass) (s : Store) (u : ReqUser) (limits : AccountLimits),
      accountLimitsLookup u.accountType = some limits →
      limits.maxFor rc ≠ -1 →
      (checkAccountLimits rc s (some u) = .next ↔
        countResource s u.tenantId rc < limits.maxFor rc) ∧
      (limits.maxFor rc ≤ countResource s u.tenantId rc →
        checkAccountLimits rc s (some u) =
          .limitExceeded403 u.accountType rc (countResource s u.tenantId rc)
            (limits.maxFor rc) (getSuggestedAccountsForLimit u.accountType))) ∧
    (∀ (s : Store) (newId : Nat) (auditOk : Bool) (email uname : String)
      (tid : Nat) (acc : AccountType) (t : Tenant),
      s.users.find? (fun u => u.email == email) = none →
      findTenant s tid = some t →
      t.isActive = true →
      (maxAllowedFor t acc = -1 →
        (register s newId auditOk email uname tid acc).fst = .created201 newId) ∧
      (maxAllowedFor t acc ≠ -1 →
        ((register s newId auditOk email uname tid acc).fst =
            .limitExceeded403 (maxAllowedFor t acc) ↔
          maxAllowedFor t acc ≤ countUsersByType s tid acc) ∧
        (countUsersByType s tid acc < maxAllowedFor t acc →
          (register s newId auditOk email uname tid acc).fst =
            .created201 newId))) := by
  refine ⟨?_, ?_, ?_⟩
  · intro rc s u limits hl hm
    simp only [checkAccountLimits]
    rw [hl]
    dsimp only
    rw [if_neg]
    intro hc
    exact hc.1 hm
  · intro rc s u limits hl hm
    simp only [checkAccountLimits]
    rw [hl]
    dsimp only
    constructor
    · by_cases hc : limits.maxFor rc ≤ countResource s u.tenantId rc
      · rw [if_pos ⟨hm, hc⟩]
        constructor
        · intro h
          exact absurd h (by simp)
        · intro h
          exact absurd hc (not_le.mpr h)
      · rw [if_neg (fun hand => hc hand.2)]
        exact ⟨fun _ => not_le.mp hc, fun _ => rfl⟩
    · intro hc
      rw [if_pos ⟨hm, hc⟩]
  · intro s newId auditOk email uname tid acc t he ht ha
    simp only [register]
    rw [he]
    dsimp only
    rw [ht]
    dsimp only
    simp only [ha, Bool.not_true, Bool.false_eq_true, if_false]
    constructor
    · intro hm
      rw [if_neg (fun hand => hand.1 hm)]
    · intro hm
      by_cases hc : maxAllowedFor t acc ≤ countUsersByType s tid acc
      · rw [if_pos ⟨hm, hc⟩]
        exact ⟨⟨fun _ => hc, fun _ => rfl⟩, fun hlt => absurd hc (not_le.mpr hlt)⟩
      · rw [if_neg (fun hand => hc hand.2)]
        refine ⟨⟨?_, ?_⟩, fun _ => rfl⟩
        · intro h
          exact absurd h (by simp)
        · intro h
          exact absurd h hc

/-- C5 witness: the MANAGERIAL tier's -1 client ceiling allows creation
in a store already holding a client. -/
theorem C5_quota_limit_semantics_witness :
    checkAccountLimits .clients
      ⟨[], [], [], [⟨1, 1⟩], [], []⟩ (some ⟨1, 1, ("MANAGERIAL")⟩) = .next :=
  C5_quota_limit_semantics.1 .clients _ _ _ rfl rfl

/-- C6: whenever the capability gate denies, the 403 body carries the
current tier, the requested module and `suggestedAccounts`; a tier is
suggested for a module exactly when its entry in the static table lists
that module; and the SIMPLE-tier request for cash_flow is denied with
suggestedAccounts [COMPOSITE, MANAGERIAL]. -/
theorem C6_capability_denial_enrichment :
    (∀ (u : ReqUser) (m : String) (allowed : List String),
      accountModulesLookup u.accountType = some allowed →
      allowed.contains m = false →
      checkAccountAccess m (some u) =
        .denied403 u.accountType m allowed (getSuggestedAccounts m)) ∧
    (∀ (m tier : String), tier ∈ getSuggestedAccounts m ↔
      ∃ mods, (tier, mods) ∈ ACCOUNT_MODULES ∧ mods.contains m = true) ∧
    checkAccountAccess ("cash_flow") (some ⟨1, 1, ("SIMPLE")⟩) =
      .denied403 ("SIMPLE") ("cash_flow")
        [ "crm", "clients", "projects", "tasks", "billing", "basic_settings" ]
        [ "COMPOSITE", "MANAGERIAL" ] := by
  refine ⟨?_, ?_, by decide⟩
  · intro u m allowed hl hc
    simp only [checkAccountAccess]
    rw [hl]
    dsimp only
    simp only [hc, Bool.not_false, if_true]
  · intro m tier
    simp only [getSuggestedAccounts, List.mem_map, List.mem_filter]
    constructor
    · rintro ⟨⟨a, b⟩, ⟨hmem, hc⟩, hfst⟩
      subst hfst
      exact ⟨b, hmem, hc⟩
    · rintro ⟨mods, hmem, hc⟩
      exact ⟨(tier, mods), ⟨hmem, hc⟩, rfl⟩

/-- C6 witness: the deny-shape conjunct applied at the cash_flow /
SIMPLE-tier scenario. -/
theorem C6_capability_denial_enrichment_witness :
    checkAccountAccess ("cash_flow") (some ⟨2, 2, ("SIMPLE")⟩) =
      .denied403 ("SIMPLE") ("cash_flow")
        [ "crm", "clients", "projects", "tasks", "billing", "basic_settings" ]
        (getSuggestedAccounts ("cash_flow")) :=
  C6_capability_denial_enrichment.1 ⟨2, 2, ("SIMPLE")⟩ ("cash_flow") _ rfl (by decide)

/-- C7 counterexample: a tenant id absent from the store is answered 404
by the tenant validator, not 403 as the claim states. -/
theorem C7_tenant_not_found_counterexample :
    tenantMiddleware ⟨[], [], [], [], [], []⟩ 0 (some ⟨1, 42, ("SIMPLE")⟩)
      = .err 404 .tenantNotFound ∧ (404 : Nat) ≠ 403 := by
  exact ⟨by decide, by decide⟩

/-- C7 amended: a missing tenant record is denied with HTTP 404 — unlike
TenantInactive and TenantExpired, which are 403 — and the three remain
pairwise distinct internal kinds. -/
theorem C7_tenant_not_found_is_404 :
    (∀ (s : Store) (now : Int) (u : ReqUser),
      findTenant s u.tenantId = none →
      tenantMiddleware s now (some u) = .err 404 .tenantNotFound) ∧
    (∀ (s : Store) (now : Int) (u : ReqUser) (t : Tenant),
      findTenant s u.tenantId = some t → t.isActive = false →
      tenantMiddleware s now (some u) = .err 403 .tenantInactive) ∧
    (∀ (s : Store) (now : Int) (u : ReqUser) (t : Tenant) (e : Int),
      findTenant s u.tenantId = some t → t.isActive = true →
      t.expiresAt = some e → e < now →
      tenantMiddleware s now (some u) = .err 403 .tenantExpired) ∧
    (TenantErrorKind.tenantNotFound ≠ .tenantInactive ∧
     TenantErrorKind.tenantNotFound ≠ .tenantExpired ∧
     TenantErrorKind.tenantInactive ≠ .tenantExpired) := by
  refine ⟨?_, ?_, ?_, by decide, by decide, by decide⟩
  · intro s now u ht
    simp only [tenantMiddleware]
    rw [ht]
  · intro s now u t ht hia
    simp only [tenantMiddleware]
    rw [ht]
    dsimp only
    simp only [hia, Bool.not_false, if_true]
  · intro s now u t e ht ha he hlt
    simp only [tenantMiddleware]
    rw [ht]
    dsimp only
    simp only [ha, Bool.not_true, Bool.false_eq_true, if_false, he]
    rw [if_pos]
    simp only [decide_eq_true_eq]
    exact hlt

/-- C7 amended witness: the empty store again — a missing tenant is 404
TenantNotFound. -/
theorem C7_tenant_not_found_is_404_witness :
    tenantMiddleware ⟨[], [], [], [], [], []⟩ 0 (some ⟨1, 7, ("SIMPLE")⟩)
      = .err 404 .tenantNotFound :=
  C7_tenant_not_found_is_404.1 _ 0 _ rfl

/-- C8 counterexample: a refresh-typed token presented to the access
check is rejected, but with the generic TokenInvalid kind (signature
verified against the wrong secret), not a distinct TokenTypeMismatch
kind — which the code never produces. -/
theorem C8_token_type_counterexample :
    authenticateToken ⟨[], [], [], [], [], []⟩ 0
      (some ⟨1, 1, none, true, .refreshSecret, 1000⟩)
      = .err 401 .tokenInvalid ∧
    AuthErrorKind.tokenInvalid ≠ .tokenTypeMismatch := by
  exact ⟨by decide, by decide⟩

/-- C8 amended: token-type confusion is always rejected and never yields
claims, but via the generic invalid-token errors: any refresh-signed
token fails the access check with 401 TokenInvalid (the signature is
checked against the access secret), and any token without the
refresh-type claim fails the refresh operation with the generic 401
(wrong signature, or the explicit type-claim check, all collapsed by the
handler's catch). -/
theorem C8_token_type_confusion_rejected :
    (∀ (s : Store) (now : Int) (tok : Token),
      tok.secret = .refreshSecret →
      authenticateToken s now (some tok) = .err 401 .tokenInvalid) ∧
    (∀ (s : Store) (now : Int) (tok : Token),
      tok.isRefreshType = false →
      refreshRoute s now (some tok) = .invalid401) := by
  constructor
  · intro s now tok hsec
    simp only [authenticateToken, jwtVerify, hsec]
    rw [if_pos (by decide)]
  · intro s now tok hty
    simp only [refreshRoute]
    cases hv : jwtVerify tok .refreshSecret now with
    | error e => rfl
    | ok d =>
      rw [jwtVerify_ok_eq hv]
      dsimp only
      simp only [hty, Bool.not_false, if_true]

/-- C8 amended witness: a concrete refresh-signed token fails the access
check with 401 TokenInvalid. -/
theorem C8_token_type_confusion_rejected_witness :
    authenticateToken ⟨[], [], [], [], [], []⟩ 5
      (some ⟨3, 4, none, true, .refreshSecret, 99⟩) = .err 401 .tokenInvalid :=
  C8_token_type_confusion_rejected.1 _ 5 _ rfl

/-- C9: evaluation at the failing input.  The upload route awaits the
audit insert directly, so a failing audit write flips its response from
200 success to a 500 error — while a route that records through
`createAuditLog` (register) returns the same response whether the audit
append succeeds or fails. -/
theorem C9_audit_failure_changes_upload_response :
    (uploadSingle ⟨[], [], [], [], [], []⟩ ⟨1, 1, ("SIMPLE")⟩ 1
      (some ⟨("f.txt"), ("f.txt"), ("text/plain"), 10, ("p")⟩) 0 true).fst
      = .success200 1 ∧
    (uploadSingle ⟨[], [], [], [], [], []⟩ ⟨1, 1, ("SIMPLE")⟩ 1
      (some ⟨("f.txt"), ("f.txt"), ("text/plain"), 10, ("p")⟩) 0 false).fst
      = .serverError500 ∧
    (UploadOutcome.success200 1 ≠ .serverError500) ∧
    (register ⟨[], [⟨1, true, none, 5, 5, 5⟩], [], [], [], []⟩ 5 true
      ("b@x.com") ("Bob") 1 .SIMPLE).fst = .created201 5 ∧
    (register ⟨[], [⟨1, true, none, 5, 5, 5⟩], [], [], [], []⟩ 5 false
      ("b@x.com") ("Bob") 1 .SIMPLE).fst = .created201 5 := by
  exact ⟨by decide, by decide, by decide, by decide, by decide⟩

/-- C10: an authenticated request whose tier string is none of SIMPLE,
COMPOSITE, MANAGERIAL is answered 500 INTERNAL_ERROR by the capability
gate (the module lookup yields undefined and the includes call throws,
caught by the middleware) — never next, never a capability denial. -/
theorem C10_unrecognized_tier_internal_error (m : String) (u : ReqUser)
    (h : u.accountType ∉ (["SIMPLE", "COMPOSITE", "MANAGERIAL"] : List String)) :
    checkAccountAccess m (some u) = .internalError500 := by
  simp only [List.mem_cons, List.not_mem_nil, or_false, not_or] at h
  obtain ⟨h1, h2, h3⟩ := h
  have e1 : (("SIMPLE" : String) == u.accountType) = false :=
    beq_eq_false_iff_ne.mpr (Ne.symm h1)
  have e2 : (("COMPOSITE" : String) == u.accountType) = false :=
    beq_eq_false_iff_ne.mpr (Ne.symm h2)
  have e3 : (("MANAGERIAL" : String) == u.accountType) = false :=
    beq_eq_false_iff_ne.mpr (Ne.symm h3)
  have hl : accountModulesLookup u.accountType = none := by
    simp only [accountModulesLookup, ACCOUNT_MODULES, List.find?_cons, e1, e2, e3,
      List.find?_nil]
    rfl
  simp only [checkAccountAccess]
  rw [hl]

/-- C10 witness: a PREMIUM tier request for the crm module is answered
500 INTERNAL_ERROR. -/
theorem C10_unrecognized_tier_internal_error_witness :
    checkAccountAccess ("crm") (some ⟨1, 1, ("PREMIUM")⟩) = .internalError500 :=
  C10_unrecognized_tier_internal_error ("crm") ⟨1, 1, ("PREMIUM")⟩ (by decide)

end LegalSaas
